import Mathlib

set_option autoImplicit false

/-!
Verification of the CoreKinect Python API client (`corekinect.py`).

The module is a thin client over a REST API: every function builds one HTTP
request, sends it, inspects the JSON response, logs findings, and returns a
value (or raises a Python exception).  The embedding below models

* JSON values (`Json`) as parsed from response bodies,
* the Python runtime errors the client can raise (`PyErr`),
* the log stream produced via the `logging` module (`LogEntry`),
* HTTP responses as the `requests` library presents them (`Resp`), and
* each client function as a pure Lean function from the response it receives
  (and, where relevant, a `server` function standing for the HTTP transport)
  to the pair of its outcome (`Except PyErr _`) and its log output.

Python-level operations that the source performs on dynamically typed values
(`in` tests, subscripting, iteration, truthiness) are modelled by explicit
functions (`pyContains`, `pySubscript`, `pyIter`, `pyTruthy`, and the
response-object variants) that follow CPython semantics, including the
`TypeError`s raised when an operation is applied to a value that does not
support it.
-/

/-- JSON values, as the Python client obtains them from `response.json()`. -/
inductive Json where
  | null : Json
  | bool : Bool → Json
  | num : Int → Json
  | str : String → Json
  | arr : List Json → Json
  | obj : List (String × Json) → Json

/-- Python runtime errors that matter to this client.  `authError` stands for
the typed authentication failure that the design documents call for; it is
part of the error taxonomy only, and no function in this module ever
produces it. -/
inductive PyErr where
  | keyError : String → PyErr
  | typeError : String → PyErr
  | indexError : PyErr
  | jsonDecodeError : PyErr
  | attributeError : String → PyErr
  | authError : PyErr
deriving DecidableEq

/-- One entry of the log stream written through the `logging` module.
`infoVal` is an info message whose formatted tail is a runtime value. -/
inductive LogEntry where
  | info : String → LogEntry
  | infoVal : String → Json → LogEntry
  | error : String → LogEntry

/-- An HTTP response as the `requests` library presents it: the status code,
the raw body as the list of byte chunks that iterating the response object
yields (`Response.__iter__` yields the content in chunks), and the result of
parsing the raw body as JSON — `none` when the body does not parse, in which
case `response.json()` raises a decode error.  A response whose parsed body
exists has a non-empty raw body: that coherence is assumed as a hypothesis
where it matters. -/
structure Resp where
  status_code : Nat
  chunks : List String
  body : Option Json

/-- One HTTP request as the client builds it: `params` is the dictionary
passed through the `params=` keyword (query parameters), `headers` the
dictionary passed through `headers=`, and `basicAuth` the credential pair
passed through `auth=` when present. -/
structure Request where
  method : String
  url : String
  params : List (String × Json)
  headers : List (String × String)
  basicAuth : Option (String × String)

/-- Outcome of running one client function: the returned value or raised
error, paired with the log entries written. -/
abbrev Step (α : Type) := Except PyErr α × List LogEntry

/-- Base URL of the service (module-level constant in the source). -/
def base : String := "https://api.corekinect.cloud:3000"

/-- Python truthiness of a JSON value: `None`, `False`, `0`, the empty
string, the empty list and the empty dict are falsy. -/
def pyTruthy : Json → Bool
  | .null => false
  | .bool b => b
  | .num n => n != 0
  | .str s => s.length != 0
  | .arr xs => !xs.isEmpty
  | .obj kvs => !kvs.isEmpty

/-- Truthiness of a `requests.Response`: `bool(response)` is `response.ok`,
i.e. the status code is below 400. -/
def respTruthy (r : Resp) : Bool := r.status_code < 400

/-- Substring test on element lists, used for the Python `in` operator on
strings. -/
def listContainsSub (needle : List Char) : List Char → Bool
  | [] => needle.isEmpty
  | c :: t => needle.isPrefixOf (c :: t) || listContainsSub needle t

/-- Python `key in value` for a string key and a JSON value: key lookup on a
dict, element equality on a list (a `str` equals no non-`str`), substring
test on a string, and `TypeError` on non-iterable values. -/
def pyContains (key : String) : Json → Except PyErr Bool
  | .obj kvs => .ok (kvs.lookup key).isSome
  | .arr xs => .ok (xs.any fun x => match x with | .str s => s == key | _ => false)
  | .str s => .ok (listContainsSub key.data s.data)
  | _ => .error (.typeError "argument is not iterable")

/-- Python `value[key]` for a string key: dict lookup raising `KeyError` on a
missing key, `TypeError` on every other value. -/
def pySubscript (j : Json) (key : String) : Except PyErr Json :=
  match j with
  | .obj kvs =>
    match kvs.lookup key with
    | some v => .ok v
    | none => .error (.keyError key)
  | .arr _ => .error (.typeError "list indices must be integers or slices, not str")
  | .str _ => .error (.typeError "string indices must be integers")
  | _ => .error (.typeError "object is not subscriptable")

/-- Python iteration over a JSON value: a list yields its elements, a dict
its keys, a string its characters; other values raise `TypeError`. -/
def pyIter : Json → Except PyErr (List Json)
  | .arr xs => .ok xs
  | .obj kvs => .ok (kvs.map fun kv => Json.str kv.1)
  | .str s => .ok (s.data.map fun c => Json.str (String.singleton c))
  | _ => .error (.typeError "object is not iterable")

/-- Python `value.values()`: defined on dicts, `AttributeError` elsewhere. -/
def pyValues : Json → Except PyErr (List Json)
  | .obj kvs => .ok (kvs.map fun kv => kv.2)
  | _ => .error (.attributeError "values")

/-- In Python 3 a `str` never compares equal to a `bytes` object, whatever
their contents. -/
def strEqBytes (_key : String) (_chunk : String) : Bool := false

/-- Python `key in response` for a `requests.Response`: the class defines no
membership test, so `in` falls back to iteration, comparing the `str` key
against each `bytes` chunk of the body — which never matches. -/
def respContains (key : String) (r : Resp) : Bool :=
  r.chunks.any (strEqBytes key)

/-- Python `response[key]`: a `requests.Response` is not subscriptable. -/
def respSubscript (_r : Resp) (_key : String) : Except PyErr Json :=
  .error (.typeError "Response object is not subscriptable")

/-- Python `chunk[key]` for a `bytes` chunk and a `str` key: byte strings are
indexed by integers only. -/
def bytesSubscript (_chunk : String) (_key : String) : Except PyErr Json :=
  .error (.typeError "byte indices must be integers or slices, not str")

/-- Subscript every `bytes` chunk of a response body with a string key, as a
list comprehension over the response object does. -/
def mapBytesSubscript (key : String) : List String → Except PyErr (List Json)
  | [] => .ok []
  | c :: cs =>
    match bytesSubscript c key with
    | .error e => .error e
    | .ok v =>
      match mapBytesSubscript key cs with
      | .error e => .error e
      | .ok vs => .ok (v :: vs)

/-- Subscript every element of a list with the same string key, as the
comprehensions `[d[k] for d in xs]` in the source do; the first error wins. -/
def mapSubscript (key : String) : List Json → Except PyErr (List Json)
  | [] => .ok []
  | x :: xs =>
    match pySubscript x key with
    | .error e => .error e
    | .ok v =>
      match mapSubscript key xs with
      | .error e => .error e
      | .ok vs => .ok (v :: vs)

/-- Request built by `print_version` (`GET /account/GetVersion`). -/
def print_version_request : Request :=
  { method := "GET", url := base ++ "/account/GetVersion",
    params := [], headers := [], basicAuth := none }

/-- Model of `print_version`, applied to the response of its single request:
checks response truthiness, logs the status code and the `Version` field, and
falls off the end of the function — so Python returns `None`, modelled as
`Json.null`. -/
def print_version (version : Resp) : Step Json :=
  let logs := if respTruthy version then []
              else [LogEntry.error "No json data received in print_version()"]
  let logs := logs ++ [LogEntry.info "Requesting version..."]
  let logs := logs ++ [LogEntry.info ("Status code: " ++ toString version.status_code)]
  match version.body with
  | none => (.error .jsonDecodeError, logs)
  | some j =>
    match pySubscript j "Version" with
    | .error e => (.error e, logs)
    | .ok v => (.ok Json.null, logs ++ [LogEntry.infoVal "Version: " v])

/-- Request built by `get_token`: client credentials go into the query
parameters, and the placeholder pair `("user", "pass")` is passed as HTTP
basic auth. -/
def get_token_request (client_id client_secret : String) : Request :=
  { method := "GET", url := base ++ "/auth/RequestToken",
    params := [("grant_type", Json.str "client_credentials"),
               ("client_id", Json.str client_id),
               ("client_secret", Json.str client_secret),
               ("content-type", Json.str "application/x-www-form-urlencoded")],
    headers := [], basicAuth := some ("user", "pass") }

/-- Model of `get_token`, applied to the response of its request: logs when
the body is falsy or lacks `access_token`, then subscripts the body with
`access_token` anyway and returns the result. -/
def get_token (authorize : Resp) : Step Json :=
  let logs := [LogEntry.info "Requesting token..."]
  match authorize.body with
  | none => (.error .jsonDecodeError, logs)
  | some j =>
    let logs := logs ++ (if pyTruthy j then []
                         else [LogEntry.error "No json data received in get_token()"])
    match pyContains "access_token" j with
    | .error e => (.error e, logs)
    | .ok c =>
      let logs := logs ++ (if c then [] else [LogEntry.error "No token received"])
      let logs := logs ++ [LogEntry.info ("Status code: " ++ toString authorize.status_code)]
      match pySubscript j "access_token" with
      | .error e => (.error e, logs)
      | .ok tok => (.ok tok, logs ++ [LogEntry.infoVal "Token: " tok])

/-- Device/activation-code pair as `add_devices` builds it for index `i`. -/
def mkDevPair (id ac : String) : Json :=
  Json.obj [("DeviceId", Json.str id), ("ActivationCode", Json.str ac)]

/-- The comprehension in `add_devices`: for each index of `new_ids`, pair
`new_ids[i]` with `new_acs[i]`; indexing `new_acs` past its end raises
`IndexError`. -/
def devPairs : List String → List String → Except PyErr (List Json)
  | [], _ => .ok []
  | _ :: _, [] => .error .indexError
  | id :: ids, ac :: acs =>
    match devPairs ids acs with
    | .error e => .error e
    | .ok rest => .ok (mkDevPair id ac :: rest)

/-- Request built by `add_devices`: the dict holding both the bearer token
under `Authorization` and the device/code pairs under `devices` is passed as
query parameters (`params=`); no headers are set. -/
def add_devices_request (new_ids new_acs : List String) (token : String) :
    Except PyErr Request :=
  match devPairs new_ids new_acs with
  | .error e => .error e
  | .ok pairs =>
    .ok { method := "POST", url := base ++ "/account/AddDevices",
          params := [("Authorization", Json.str ("Bearer " ++ token)),
                     ("devices", Json.arr pairs)],
          headers := [], basicAuth := none }

/-- Model of `add_devices`: builds the request dict (which can raise
`IndexError` before anything is sent), sends it through `server`, then checks
and subscripts the response body and extracts the `DeviceId` of every entry
under `DevicesPassed`. -/
def add_devices (new_ids new_acs : List String) (token : String)
    (server : Request → Resp) : Step Json :=
  let logs := [LogEntry.info "Adding devices..."]
  match add_devices_request new_ids new_acs token with
  | .error e => (.error e, logs)
  | .ok req =>
    let attempt_add := server req
    match attempt_add.body with
    | none => (.error .jsonDecodeError, logs)
    | some j =>
      let logs := logs ++ (if pyTruthy j then []
                           else [LogEntry.error "No json data received in add_devices()"])
      match pyContains "DevicesPassed" j with
      | .error e => (.error e, logs)
      | .ok c =>
        let logs := logs ++ (if c then [] else [LogEntry.error "Failed to add any devices"])
        match pySubscript j "DevicesPassed" with
        | .error e => (.error e, logs)
        | .ok dp =>
          match pyIter dp with
          | .error e => (.error e, logs)
          | .ok entries =>
            match mapSubscript "DeviceId" entries with
            | .error e => (.error e, logs)
            | .ok passed =>
              (.ok (Json.arr passed),
               logs ++ [LogEntry.infoVal "Added successfully: " (Json.arr passed)])

/-- Request built by `create_endpoint`: the target URL and the bearer token
both go into the query parameters; no headers are set. -/
def create_endpoint_request (token devv_url : String) : Request :=
  { method := "POST", url := base ++ "/account/CreateEndpoint",
    params := [("URL", Json.str devv_url),
               ("Authorization", Json.str ("Bearer " ++ token))],
    headers := [], basicAuth := none }

/-- Model of `create_endpoint`, applied to the response of its request: logs
when the body is falsy or lacks `EndpointId`, logs the `EndpointId` by
subscripting the body, and returns the whole parsed body. -/
def create_endpoint (endpoint : Resp) : Step Json :=
  let logs := [LogEntry.info "Creating endpoint..."]
  match endpoint.body with
  | none => (.error .jsonDecodeError, logs)
  | some j =>
    let logs := logs ++ (if pyTruthy j then []
                         else [LogEntry.error "No json data received in create_endpoint()"])
    match pyContains "EndpointId" j with
    | .error e => (.error e, logs)
    | .ok c =>
      let logs := logs ++
        (if c then []
         else [LogEntry.error "EndpointId is missing from json response in create_endpoint()"])
      match pySubscript j "EndpointId" with
      | .error e => (.error e, logs)
      | .ok eid => (.ok j, logs ++ [LogEntry.infoVal "Endpoint ID: " eid])

/-- Request built by `create_oauth_endpoint`: all fields, the bearer token
included, go into the query parameters; no headers are set.  The source gives
`AuthTokenType` and `AuthTokenKey` the defaults `"Bearer"` and
`"access_token"`. -/
def create_oauth_endpoint_request (devv_url auth_url token AuthTokenType AuthTokenKey : String) :
    Request :=
  { method := "POST", url := base ++ "/account/CreateEndpoint",
    params := [("URL", Json.str devv_url),
               ("AuthUrl", Json.str auth_url),
               ("Authorization", Json.str ("Bearer " ++ token)),
               ("AuthTokenType", Json.str AuthTokenType),
               ("AuthTokenKey", Json.str AuthTokenKey)],
    headers := [], basicAuth := none }

/-- Model of `create_oauth_endpoint`, applied to the response of its request:
when `EndpointId` is absent it logs one of two messages depending on whether
`EndpointError` is present, then subscripts the body with `EndpointId` anyway
and, on success, returns the whole parsed body. -/
def create_oauth_endpoint (endpoint : Resp) : Step Json :=
  let logs := [LogEntry.info "Creating endpoint..."]
  match endpoint.body with
  | none => (.error .jsonDecodeError, logs)
  | some j =>
    let logs := logs ++ (if pyTruthy j then []
                         else [LogEntry.error "No json data received in create_endpoint()"])
    match pyContains "EndpointId" j with
    | .error e => (.error e, logs)
    | .ok cId =>
      if cId then
        match pySubscript j "EndpointId" with
        | .error e => (.error e, logs)
        | .ok eid => (.ok j, logs ++ [LogEntry.infoVal "Endpoint ID: " eid])
      else
        match pyContains "EndpointError" j with
        | .error e => (.error e, logs)
        | .ok cErr =>
          let logs := logs ++
            [if cErr then
               LogEntry.error "Failed to get a token from AuthUrl with given parameters, response from AuthUrl was 400"
             else
               LogEntry.error "EndpointId is missing from json response in create_oauth_endpoint()"]
          match pySubscript j "EndpointId" with
          | .error e => (.error e, logs)
          | .ok eid => (.ok j, logs ++ [LogEntry.infoVal "Endpoint ID: " eid])

/-- Request built by `assign_to_endpoint`: this one does place the bearer
token in the `Authorization` header. -/
def assign_to_endpoint_request (device_ids : List String) (endpoint_id token : String) :
    Request :=
  { method := "POST", url := base ++ "/account/AssignDevicesToEndpoint",
    params := [("EndpointId", Json.str endpoint_id),
               ("Devices", Json.arr (device_ids.map fun d => Json.obj [("DeviceId", Json.str d)]))],
    headers := [("Authorization", "Bearer " ++ token)], basicAuth := none }

/-- Request built by `delete_from_endpoint`: bearer token in the header. -/
def delete_from_endpoint_request (device_ids : List String) (endpoint_id token : String) :
    Request :=
  { method := "DELETE", url := base ++ "/account/DeleteDevicesFromEndpoint",
    params := [("EndpointId", Json.str endpoint_id),
               ("Devices", Json.arr (device_ids.map fun d => Json.obj [("DeviceId", Json.str d)]))],
    headers := [("Authorization", "Bearer " ++ token)], basicAuth := none }

/-- Request built by `delete_endpoints`: bearer token in the header. -/
def delete_endpoints_request (kill_points : List String) (token : String) : Request :=
  { method := "DELETE", url := base ++ "/account/DeleteEndpoints",
    params := [("Endpoints", Json.arr (kill_points.map fun p => Json.obj [("EndpointId", Json.str p)]))],
    headers := [("Authorization", "Bearer " ++ token)], basicAuth := none }

/-- Request built by `get_endpoints`: bearer token in the header. -/
def get_endpoints_request (token : String) : Request :=
  { method := "GET", url := base ++ "/account/GetEndpoints/",
    params := [], headers := [("Authorization", "Bearer " ++ token)], basicAuth := none }

/-- The
`for entry in ...: logging.info(entry.values())` loop of `get_endpoints`:
produces the entries logged before the loop finishes or dies on a non-dict
entry. -/
def logValues : List Json → Except PyErr Unit × List LogEntry
  | [] => (.ok (), [])
  | e :: rest =>
    match pyValues e with
    | .error err => (.error err, [])
    | .ok vs =>
      let tail := logValues rest
      (tail.1, LogEntry.infoVal "Found: " (Json.arr vs) :: tail.2)

/-- Model of `get_endpoints`, applied to the response of its request: the
validation tests for the key `EndpointId`, but the extraction subscripts the
body with the different key `Endpoints`, iterates the entries logging their
values, and returns the `Endpoints` value. -/
def get_endpoints (endpoints : Resp) : Step Json :=
  let logs := [LogEntry.info "Requesting list of endpoints..."]
  match endpoints.body with
  | none => (.error .jsonDecodeError, logs)
  | some j =>
    let logs := logs ++ (if pyTruthy j then []
                         else [LogEntry.error "No json data received in get_endpoints()"])
    match pyContains "EndpointId" j with
    | .error e => (.error e, logs)
    | .ok c =>
      let logs := logs ++
        (if c then []
         else [LogEntry.error "Endpoints are missing from json response in get_endpoints()"])
      match pySubscript j "Endpoints" with
      | .error e => (.error e, logs)
      | .ok eps =>
        match pyIter eps with
        | .error e => (.error e, logs)
        | .ok entries =>
          let loop := logValues entries
          let logs := logs ++ loop.2
          match loop.1 with
          | .error e => (.error e, logs)
          | .ok _ => (.ok eps, logs)

/-- Request built by `get_devices`: bearer token in the header. -/
def get_devices_request (token : String) : Request :=
  { method := "GET", url := base ++ "/account/GetDevices/",
    params := [], headers := [("Authorization", "Bearer " ++ token)], basicAuth := none }

/-- Model of `get_devices`, applied to the response of its request: the
membership test and the subscript are performed on the raw response object,
not on the parsed body, so the subscript raises `TypeError`. -/
def get_devices (devices : Resp) : Step Json :=
  let logs := [LogEntry.info "Requesting list of devices..."]
  let logs := logs ++ (if respTruthy devices then []
                       else [LogEntry.error "No json data received in get_devices()"])
  let logs := logs ++ (if respContains "Devices" devices then []
                       else [LogEntry.error "No devices found"])
  match respSubscript devices "Devices" with
  | .error e => (.error e, logs)
  | .ok dv =>
    match pyIter dv with
    | .error e => (.error e, logs)
    | .ok entries =>
      match mapSubscript "DeviceId" entries with
      | .error e => (.error e, logs)
      | .ok found =>
        let logs := logs ++ [LogEntry.infoVal "Found devices: " (Json.arr found)]
        match devices.body with
        | none => (.error .jsonDecodeError, logs)
        | some j =>
          match pySubscript j "Devices" with
          | .error e => (.error e, logs)
          | .ok dvs => (.ok dvs, logs)

/-- Request built by `get_devices_by_location`: bearer token in the
header. -/
def get_devices_by_location_request (token : String) : Request :=
  { method := "GET", url := base ++ "/account/GetDevicesByLocation/",
    params := [], headers := [("Authorization", "Bearer " ++ token)], basicAuth := none }

/-- Model of `get_devices_by_location`, applied to the response of its
request: the membership test and the logging comprehension run over the raw
response object, whose iteration yields `bytes` chunks; subscripting a chunk
with a string key raises `TypeError`. -/
def get_devices_by_location (devices : Resp) : Step Json :=
  let logs := [LogEntry.info "Requesting device list by location..."]
  let logs := logs ++ (if respTruthy devices then []
                       else [LogEntry.error "No json data received in get_devices_by_location()"])
  let logs := logs ++ (if respContains "Devices" devices then []
                       else [LogEntry.error "No devices found"])
  match mapBytesSubscript "LocationName" devices.chunks with
  | .error e => (.error e, logs)
  | .ok names =>
    let logs := logs ++ [LogEntry.infoVal "Locations found: " (Json.arr names)]
    match devices.body with
    | none => (.error .jsonDecodeError, logs)
    | some j => (.ok j, logs)

/-- Request built by `get_locations`: bearer token in the header. -/
def get_locations_request (token : String) : Request :=
  { method := "GET", url := base ++ "/account/GetLocations/",
    params := [], headers := [("Authorization", "Bearer " ++ token)], basicAuth := none }

/-- Model of `get_locations`, applied to the response of its request: the
logging comprehension iterates the raw response object, so any non-empty body
makes the chunk subscript raise `TypeError`. -/
def get_locations (locations : Resp) : Step Json :=
  let logs := [LogEntry.info "Requesting location list..."]
  let logs := logs ++ (if respTruthy locations then []
                       else [LogEntry.error "No json data received in get_locations()"])
  match mapBytesSubscript "LocationName" locations.chunks with
  | .error e => (.error e, logs)
  | .ok names =>
    let logs := logs ++ [LogEntry.infoVal "Locations found: " (Json.arr names)]
    match locations.body with
    | none => (.error .jsonDecodeError, logs)
    | some j => (.ok j, logs)

/-- Request built by `get_location_reports`: bearer token in the header. -/
def get_location_reports_request (token : String) : Request :=
  { method := "GET", url := base ++ "/account/GetLocationReports",
    params := [], headers := [("Authorization", "Bearer " ++ token)], basicAuth := none }

/-- Model of `get_location_reports`, applied to the response of its request:
like `get_locations`, the logging comprehension iterates the raw response
object. -/
def get_location_reports (reports : Resp) : Step Json :=
  let logs := [LogEntry.info "Requesting location reports..."]
  let logs := logs ++ (if respTruthy reports then []
                       else [LogEntry.error "No json data received in get_location_reports"])
  match mapBytesSubscript "LocationName" reports.chunks with
  | .error e => (.error e, logs)
  | .ok names =>
    let logs := logs ++ [LogEntry.infoVal "Reports generated for: " (Json.arr names)]
    match reports.body with
    | none => (.error .jsonDecodeError, logs)
    | some j => (.ok j, logs)

/-- Test for a JSON dict. -/
def Json.isObj : Json → Bool
  | .obj _ => true
  | _ => false

/-- Building the device/code pairs succeeds and pairs the lists positionally
whenever the activation-code list is at least as long as the id list. -/
theorem devPairs_ok_of_le :
    ∀ (ids acs : List String), ids.length ≤ acs.length →
      devPairs ids acs = .ok (List.zipWith mkDevPair ids acs) := by
  intro ids
  induction ids with
  | nil => intro acs _; cases acs <;> rfl
  | cons id ids ih =>
    intro acs h
    cases acs with
    | nil => simp at h
    | cons ac acs =>
      simp only [List.length_cons, Nat.add_le_add_iff_right] at h
      simp [devPairs, ih acs h, List.zipWith]

/-- Building the device/code pairs raises `IndexError` whenever the
activation-code list is strictly shorter than the id list. -/
theorem devPairs_err_of_lt :
    ∀ (ids acs : List String), acs.length < ids.length →
      devPairs ids acs = .error .indexError := by
  intro ids
  induction ids with
  | nil => intro acs h; simp at h
  | cons id ids ih =>
    intro acs h
    cases acs with
    | nil => rfl
    | cons ac acs =>
      simp only [List.length_cons, Nat.add_lt_add_iff_right] at h
      simp [devPairs, ih acs h]

/-- Activation codes past the length of the id list never influence the
pairs that are built. -/
theorem devPairs_take :
    ∀ (ids acs : List String), ids.length ≤ acs.length →
      devPairs ids acs = devPairs ids (List.take ids.length acs) := by
  intro ids
  induction ids with
  | nil => intro acs _; rfl
  | cons id ids ih =>
    intro acs h
    cases acs with
    | nil => simp at h
    | cons ac acs =>
      simp only [List.length_cons, Nat.add_le_add_iff_right] at h
      simp [devPairs, List.take, ih acs h]

/-- Extracting a field from every element preserves the element count. -/
theorem mapSubscript_length (key : String) :
    ∀ (ds outs : List Json), mapSubscript key ds = .ok outs → outs.length = ds.length := by
  intro ds
  induction ds with
  | nil => intro outs h; simp [mapSubscript] at h; simp [← h]
  | cons d ds ih =>
    intro outs h
    simp only [mapSubscript] at h
    cases hd : pySubscript d key with
    | error e => rw [hd] at h; exact absurd h (by simp)
    | ok v =>
      rw [hd] at h
      cases ht : mapSubscript key ds with
      | error e => rw [ht] at h; exact absurd h (by simp)
      | ok vs =>
        rw [ht] at h
        cases h
        simp [ih vs ht]

/-- The logging loop of `get_endpoints` finishes normally when every entry is
a dict. -/
theorem logValues_fst_ok :
    ∀ (es : List Json), es.all Json.isObj = true → (logValues es).1 = .ok () := by
  intro es
  induction es with
  | nil => intro _; rfl
  | cons e es ih =>
    intro h
    rw [List.all_cons, Bool.and_eq_true] at h
    cases e with
    | obj kvs => simp [logValues, pyValues, ih h.2]
    | null => exact absurd h.1 (by simp [Json.isObj])
    | bool b => exact absurd h.1 (by simp [Json.isObj])
    | num n => exact absurd h.1 (by simp [Json.isObj])
    | str s => exact absurd h.1 (by simp [Json.isObj])
    | arr xs => exact absurd h.1 (by simp [Json.isObj])

/-- Element-wise form of the positional pairing: the pair at index `i` is
built from the id at index `i` and the activation code at index `i`. -/
theorem zipWith_mkDevPair_getD :
    ∀ (ids acs : List String) (i : Nat), i < ids.length → i < acs.length →
      (List.zipWith mkDevPair ids acs).getD i Json.null =
        mkDevPair (ids.getD i "") (acs.getD i "") := by
  intro ids
  induction ids with
  | nil => intro acs i h _; simp at h
  | cons id ids ih =>
    intro acs i hi hj
    cases acs with
    | nil => simp at hj
    | cons ac acs =>
      cases i with
      | zero => rfl
      | succ n =>
        simp only [List.length_cons, Nat.add_lt_add_iff_right] at hi hj
        simpa [List.zipWith] using ih acs n hi hj

/-- Response whose JSON body carries a token type but no `access_token`. -/
def respNoTok : Resp :=
  { status_code := 200, chunks := ["c"],
    body := some (Json.obj [("token_type", Json.str "bearer")]) }

/-- Response of an authentication attempt with invalid credentials: an error
body with no `access_token`. -/
def respBadCreds : Resp :=
  { status_code := 401, chunks := ["c"],
    body := some (Json.obj [("error", Json.str "invalid_client")]) }

/-- Response in which the auth URL rejected the client-credentials exchange:
an `EndpointError` body with no `EndpointId`. -/
def respAuthRejected : Resp :=
  { status_code := 400, chunks := ["c"],
    body := some (Json.obj [("EndpointError", Json.str "Bad Request")]) }

/-- Response whose body lacks `EndpointId` without reporting an
`EndpointError`. -/
def respNoId : Resp :=
  { status_code := 200, chunks := ["c"],
    body := some (Json.obj [("URL", Json.str "https://target.example")]) }

/-- Response whose `DevicesPassed` entries name two device ids that appear in
no input list of the counterexample below. -/
def respForeign : Resp :=
  { status_code := 200, chunks := ["c"],
    body := some (Json.obj
      [("DevicesPassed", Json.arr
        [Json.obj [("DeviceId", Json.str "XXXXXXXXXXXXXXXX")],
         Json.obj [("DeviceId", Json.str "YYYYYYYYYYYYYYYY")]])]) }

/-- Response carrying a `Version` field. -/
def respVersion : Resp :=
  { status_code := 200, chunks := ["c"],
    body := some (Json.obj [("Version", Json.str "1.2.3")]) }

/-- Well-formed response for the list-returning operations: raw body
non-empty, parsed body a dict holding the documented list. -/
def respRaw : Resp :=
  { status_code := 200, chunks := ["c"],
    body := some (Json.obj [("Devices", Json.arr [])]) }

/-- Response for `add_devices` whose `DevicesPassed` entries echo the single
input device id. -/
def respPassed : Resp :=
  { status_code := 200, chunks := ["c"],
    body := some (Json.obj
      [("DevicesPassed", Json.arr [Json.obj [("DeviceId", Json.str "0123456789abcdef")]])]) }

/-- Response for `get_endpoints` holding an `Endpoints` list but no top-level
`EndpointId`. -/
def respEndpoints : Resp :=
  { status_code := 200, chunks := ["c"],
    body := some (Json.obj
      [("Endpoints", Json.arr
        [Json.obj [("EndpointId", Json.str "E1"),
                   ("URL", Json.str "https://target.example"),
                   ("DataType", Json.str "json")]])]) }

/-- C3: the claim says every authenticated operation carries the credential
as the header `Authorization: Bearer <token>`, naming `add_devices`,
`create_endpoint` and `create_oauth_endpoint`.  The code contradicts it for
exactly those three operations: each builds its request with an empty header
dictionary and places the `Authorization` entry among the query parameters,
while `assign_to_endpoint` (and the remaining operations) do use the header.
The spec and the rest of the module show the header placement is the intent,
so this is recorded as a code bug; this theorem evaluates the request
builders at the failing inputs. -/
theorem C3_auth_header_code_bug :
    (create_endpoint_request "tok" "https://target.example").headers = [] ∧
    (create_endpoint_request "tok" "https://target.example").params =
      [("URL", Json.str "https://target.example"),
       ("Authorization", Json.str "Bearer tok")] ∧
    (create_oauth_endpoint_request "https://target.example" "https://auth.example"
        "tok" "Bearer" "access_token").headers = [] ∧
    (create_oauth_endpoint_request "https://target.example" "https://auth.example"
        "tok" "Bearer" "access_token").params =
      [("URL", Json.str "https://target.example"),
       ("AuthUrl", Json.str "https://auth.example"),
       ("Authorization", Json.str "Bearer tok"),
       ("AuthTokenType", Json.str "Bearer"),
       ("AuthTokenKey", Json.str "access_token")] ∧
    add_devices_request ["0123456789abcdef"] ["0123456789abcdef0123456789abcdef"] "tok" =
      .ok { method := "POST", url := base ++ "/account/AddDevices",
            params := [("Authorization", Json.str "Bearer tok"),
                       ("devices", Json.arr [mkDevPair "0123456789abcdef"
                                               "0123456789abcdef0123456789abcdef"])],
            headers := [], basicAuth := none } ∧
    (assign_to_endpoint_request ["0123456789abcdef"] "E1" "tok").headers =
      [("Authorization", "Bearer tok")] :=
  ⟨rfl, rfl, rfl, rfl, rfl, rfl⟩

/-- C1 (counterexample): on a response whose JSON body lacks `access_token`,
`get_token` does not signal a distinguishable error — it raises exactly the
missing-key lookup failure the claim excludes. -/
theorem C1_missing_key_counterexample :
    (get_token respNoTok).1 = .error (.keyError "access_token") ∧
    (create_endpoint respNoId).1 = .error (.keyError "EndpointId") :=
  ⟨rfl, rfl⟩

/-- C4 (counterexample): with one input device id, a server response whose
`DevicesPassed` lists two foreign ids makes `add_devices` return a
two-element list containing ids drawn from the response, not from the input
list. -/
theorem C4_output_unbounded_counterexample :
    (add_devices ["0123456789abcdef"] ["0123456789abcdef0123456789abcdef"] "tok"
        (fun _ => respForeign)).1 =
      .ok (Json.arr [Json.str "XXXXXXXXXXXXXXXX", Json.str "YYYYYYYYYYYYYYYY"]) ∧
    ¬ ([Json.str "XXXXXXXXXXXXXXXX", Json.str "YYYYYYYYYYYYYYYY"].length ≤
        (["0123456789abcdef"] : List String).length) ∧
    ¬ ("XXXXXXXXXXXXXXXX" ∈ (["0123456789abcdef"] : List String)) :=
  ⟨rfl, by decide, by decide⟩

/-- C6 (counterexample): the response reporting an `EndpointError` and the
response merely lacking `EndpointId` lead `create_oauth_endpoint` to the very
same caller-visible failure, the KeyError on `EndpointId`, so the two cases
are not distinguishable by the caller. -/
theorem C6_indistinguishable_counterexample :
    (create_oauth_endpoint respAuthRejected).1 = .error (.keyError "EndpointId") ∧
    (create_oauth_endpoint respNoId).1 = .error (.keyError "EndpointId") :=
  ⟨rfl, rfl⟩

/-- C7 (counterexample): with invalid credentials `get_token` raises the
generic missing-key lookup failure, not a typed authentication error. -/
theorem C7_key_error_counterexample :
    (get_token respBadCreds).1 = .error (.keyError "access_token") ∧
    PyErr.keyError "access_token" ≠ PyErr.authError :=
  ⟨rfl, by decide⟩

/-- C8 (counterexample): on a response carrying a `Version` field,
`print_version` logs the version but returns `None`, not the version
string. -/
theorem C8_returns_none_counterexample :
    (print_version respVersion).1 = .ok Json.null ∧ Json.null ≠ Json.str "1.2.3" :=
  ⟨rfl, fun h => Json.noConfusion h⟩

/-- C1 (amended): when the JSON body lacks the operation's expected top-level
key, `get_token`, `create_endpoint` and `add_devices` each log an error
message but then raise exactly the missing-key lookup failure (`KeyError` on
the expected key); no distinguishable error reaches the caller. -/
theorem C1_missing_key_logs_then_raises :
    (∀ (r : Resp) (kvs : List (String × Json)),
       r.body = some (Json.obj kvs) → kvs.lookup "access_token" = none →
       (get_token r).1 = .error (.keyError "access_token") ∧
       LogEntry.error "No token received" ∈ (get_token r).2) ∧
    (∀ (r : Resp) (kvs : List (String × Json)),
       r.body = some (Json.obj kvs) → kvs.lookup "EndpointId" = none →
       (create_endpoint r).1 = .error (.keyError "EndpointId") ∧
       LogEntry.error "EndpointId is missing from json response in create_endpoint()" ∈
         (create_endpoint r).2) ∧
    (∀ (ids acs : List String) (tok : String) (r : Resp) (kvs : List (String × Json)),
       ids.length ≤ acs.length →
       r.body = some (Json.obj kvs) → kvs.lookup "DevicesPassed" = none →
       (add_devices ids acs tok (fun _ => r)).1 = .error (.keyError "DevicesPassed") ∧
       LogEntry.error "Failed to add any devices" ∈ (add_devices ids acs tok (fun _ => r)).2) := by
  refine ⟨?_, ?_, ?_⟩
  · intro r kvs hb hlk
    simp [get_token, hb, pyContains, pySubscript, hlk]
  · intro r kvs hb hlk
    simp [create_endpoint, hb, pyContains, pySubscript, hlk]
  · intro ids acs tok r kvs hlen hb hlk
    simp [add_devices, add_devices_request, devPairs_ok_of_le ids acs hlen, hb,
      pyContains, pySubscript, hlk]

/-- C1 (witness): the amended behaviour at the concrete response lacking the
token key. -/
theorem C1_missing_key_witness :
    respNoTok.body = some (Json.obj [("token_type", Json.str "bearer")]) ∧
    (get_token respNoTok).1 = .error (.keyError "access_token") ∧
    LogEntry.error "No token received" ∈ (get_token respNoTok).2 := by
  refine ⟨rfl, C1_missing_key_logs_then_raises.1 respNoTok _ rfl rfl⟩

/-- C6 (amended): when `EndpointId` is absent, `create_oauth_endpoint` logs a
distinct message depending on whether the body reports an `EndpointError`,
but the failure the caller observes is the same `KeyError` on `EndpointId`
in both cases. -/
theorem C6_distinct_log_same_error :
    ∀ (r : Resp) (kvs : List (String × Json)),
      r.body = some (Json.obj kvs) → kvs.lookup "EndpointId" = none →
      (((kvs.lookup "EndpointError").isSome →
         (create_oauth_endpoint r).1 = .error (.keyError "EndpointId") ∧
         LogEntry.error "Failed to get a token from AuthUrl with given parameters, response from AuthUrl was 400" ∈
           (create_oauth_endpoint r).2) ∧
       (kvs.lookup "EndpointError" = none →
         (create_oauth_endpoint r).1 = .error (.keyError "EndpointId") ∧
         LogEntry.error "EndpointId is missing from json response in create_oauth_endpoint()" ∈
           (create_oauth_endpoint r).2)) := by
  intro r kvs hb hlk
  constructor
  · intro herr
    simp [create_oauth_endpoint, hb, pyContains, pySubscript, hlk, herr]
  · intro herr
    simp [create_oauth_endpoint, hb, pyContains, pySubscript, hlk, herr]

/-- C6 (witness): the amended behaviour at the concrete rejected-exchange
response. -/
theorem C6_distinct_log_witness :
    respAuthRejected.body = some (Json.obj [("EndpointError", Json.str "Bad Request")]) ∧
    (create_oauth_endpoint respAuthRejected).1 = .error (.keyError "EndpointId") ∧
    LogEntry.error "Failed to get a token from AuthUrl with given parameters, response from AuthUrl was 400" ∈
      (create_oauth_endpoint respAuthRejected).2 := by
  refine ⟨rfl, (C6_distinct_log_same_error respAuthRejected _ rfl rfl).1 (by decide)⟩

/-- C7 (amended): a `get_token` call whose response body lacks
`access_token` fails — after logging — with the generic missing-key lookup
failure `KeyError` rather than a typed authentication error, and returns no
token. -/
theorem C7_invalid_creds_key_error :
    ∀ (r : Resp) (kvs : List (String × Json)),
      r.body = some (Json.obj kvs) → kvs.lookup "access_token" = none →
      (get_token r).1 = .error (.keyError "access_token") ∧
      (get_token r).1 ≠ .error PyErr.authError ∧
      (∀ v, (get_token r).1 ≠ .ok v) ∧
      LogEntry.error "No token received" ∈ (get_token r).2 := by
  intro r kvs hb hlk
  refine ⟨?_, ?_, ?_, ?_⟩ <;>
    simp [get_token, hb, pyContains, pySubscript, hlk]

/-- C7 (witness): the amended behaviour at the concrete invalid-credentials
response. -/
theorem C7_invalid_creds_witness :
    respBadCreds.body = some (Json.obj [("error", Json.str "invalid_client")]) ∧
    (get_token respBadCreds).1 = .error (.keyError "access_token") ∧
    (get_token respBadCreds).1 ≠ .error PyErr.authError := by
  have h := C7_invalid_creds_key_error respBadCreds _ rfl rfl
  exact ⟨rfl, h.1, h.2.1⟩

/-- C8 (amended): on a response whose body carries a `Version` field,
`print_version` logs that version value but returns `None` (there is no
return statement), so no version string reaches the caller. -/
theorem C8_version_logged_not_returned :
    ∀ (r : Resp) (kvs : List (String × Json)) (v : Json),
      r.body = some (Json.obj kvs) → kvs.lookup "Version" = some v →
      (print_version r).1 = .ok Json.null ∧
      LogEntry.infoVal "Version: " v ∈ (print_version r).2 := by
  intro r kvs v hb hlk
  simp [print_version, hb, pySubscript, hlk]

/-- C8 (witness): the amended behaviour at the concrete versioned
response. -/
theorem C8_version_witness :
    respVersion.body = some (Json.obj [("Version", Json.str "1.2.3")]) ∧
    (print_version respVersion).1 = .ok Json.null ∧
    LogEntry.infoVal "Version: " (Json.str "1.2.3") ∈ (print_version respVersion).2 :=
  ⟨rfl, C8_version_logged_not_returned respVersion _ _ rfl rfl⟩

/-- C2: the four list-returning operations act on the raw response object
instead of the parsed body — `get_devices` subscripts the response itself,
the other three iterate it inside their logging comprehensions — so on every
coherent response (a parsed body implies a non-empty raw body) none of them
returns normally, and whenever the raw body is non-empty (in particular on
every well-formed JSON response) the failure is a `TypeError`. -/
theorem C2_raw_response_type_error :
    ∀ (r : Resp), (r.body.isSome → r.chunks ≠ []) →
      (get_devices r).1 = .error (.typeError "Response object is not subscriptable") ∧
      (∀ v, (get_devices_by_location r).1 ≠ .ok v) ∧
      (∀ v, (get_locations r).1 ≠ .ok v) ∧
      (∀ v, (get_location_reports r).1 ≠ .ok v) ∧
      (r.chunks ≠ [] →
        (get_devices_by_location r).1 =
          .error (.typeError "byte indices must be integers or slices, not str") ∧
        (get_locations r).1 =
          .error (.typeError "byte indices must be integers or slices, not str") ∧
        (get_location_reports r).1 =
          .error (.typeError "byte indices must be integers or slices, not str")) := by
  intro r hcoh
  have hdev : (get_devices r).1 = .error (.typeError "Response object is not subscriptable") := by
    simp [get_devices, respSubscript]
  rcases hc : r.chunks with _ | ⟨c, cs⟩
  · have hb : r.body = none := by
      cases hbody : r.body with
      | none => rfl
      | some j => exact absurd hc (hcoh (by simp [hbody]))
    refine ⟨hdev, ?_, ?_, ?_, fun hne => absurd rfl hne⟩
    · intro v; simp [get_devices_by_location, hc, mapBytesSubscript, hb]
    · intro v; simp [get_locations, hc, mapBytesSubscript, hb]
    · intro v; simp [get_location_reports, hc, mapBytesSubscript, hb]
  · refine ⟨hdev, ?_, ?_, ?_, fun _ => ⟨?_, ?_, ?_⟩⟩ <;>
      simp [get_devices_by_location, get_locations, get_location_reports, hc,
        mapBytesSubscript, bytesSubscript]

/-- C2 (witness): the type errors at a concrete well-formed response. -/
theorem C2_raw_response_witness :
    (respRaw.body.isSome → respRaw.chunks ≠ []) ∧
    (get_devices respRaw).1 = .error (.typeError "Response object is not subscriptable") ∧
    (get_locations respRaw).1 =
      .error (.typeError "byte indices must be integers or slices, not str") := by
  refine ⟨fun _ => by decide, ?_, ?_⟩
  · exact (C2_raw_response_type_error respRaw (fun _ => by decide)).1
  · exact ((C2_raw_response_type_error respRaw (fun _ => by decide)).2.2.2.2 (by decide)).2.1

/-- C9: `get_endpoints` validates by testing for the key `EndpointId` but
extracts the different key `Endpoints`; on a body that holds `Endpoints` (a
list of dicts) without a top-level `EndpointId`, the missing-data error is
logged and the endpoint list is returned anyway. -/
theorem C9_checks_wrong_key :
    ∀ (r : Resp) (kvs : List (String × Json)) (eps : List Json),
      r.body = some (Json.obj kvs) →
      kvs.lookup "EndpointId" = none →
      kvs.lookup "Endpoints" = some (Json.arr eps) →
      eps.all Json.isObj = true →
      LogEntry.error "Endpoints are missing from json response in get_endpoints()" ∈
        (get_endpoints r).2 ∧
      (get_endpoints r).1 = .ok (Json.arr eps) := by
  intro r kvs eps hb hid heps hobj
  simp [get_endpoints, hb, pyContains, pySubscript, hid, heps, pyIter,
    logValues_fst_ok eps hobj]

/-- C9 (witness): the logged-yet-returned behaviour at a concrete
response. -/
theorem C9_checks_wrong_key_witness :
    respEndpoints.body = some (Json.obj
      [("Endpoints", Json.arr
        [Json.obj [("EndpointId", Json.str "E1"),
                   ("URL", Json.str "https://target.example"),
                   ("DataType", Json.str "json")]])]) ∧
    LogEntry.error "Endpoints are missing from json response in get_endpoints()" ∈
      (get_endpoints respEndpoints).2 ∧
    (get_endpoints respEndpoints).1 = .ok (Json.arr
      [Json.obj [("EndpointId", Json.str "E1"),
                 ("URL", Json.str "https://target.example"),
                 ("DataType", Json.str "json")]]) :=
  ⟨rfl, C9_checks_wrong_key respEndpoints _ _ rfl rfl rfl rfl⟩

/-- C4 (amended): for equal-length inputs, `add_devices` returns exactly the
`DeviceId` fields of the entries the response lists under `DevicesPassed`;
the output has the length of that response list, so the claimed bound by the
input length — and membership in the input id list — hold only when the
server's response happens to satisfy them, which the code never checks. -/
theorem C4_output_mirrors_response :
    ∀ (ids acs : List String) (tok : String) (r : Resp) (kvs : List (String × Json))
      (ds outs : List Json),
      ids.length = acs.length →
      r.body = some (Json.obj kvs) →
      kvs.lookup "DevicesPassed" = some (Json.arr ds) →
      mapSubscript "DeviceId" ds = .ok outs →
      (add_devices ids acs tok (fun _ => r)).1 = .ok (Json.arr outs) ∧
      outs.length = ds.length := by
  intro ids acs tok r kvs ds outs hlen hb hdp hmap
  refine ⟨?_, mapSubscript_length _ ds outs hmap⟩
  simp [add_devices, add_devices_request, devPairs_ok_of_le ids acs (le_of_eq hlen), hb,
    pyContains, pySubscript, hdp, pyIter, hmap]

/-- C4 (witness): the amended behaviour at a concrete echoing response. -/
theorem C4_output_mirrors_witness :
    (["0123456789abcdef"] : List String).length =
      (["0123456789abcdef0123456789abcdef"] : List String).length ∧
    (add_devices ["0123456789abcdef"] ["0123456789abcdef0123456789abcdef"] "tok"
        (fun _ => respPassed)).1 = .ok (Json.arr [Json.str "0123456789abcdef"]) :=
  ⟨rfl,
   (C4_output_mirrors_response ["0123456789abcdef"] ["0123456789abcdef0123456789abcdef"]
      "tok" respPassed _ _ _ rfl rfl rfl rfl).1⟩

/-- C5: for equal-length inputs `add_devices` pairs the two lists
positionally — the request dict pairs `new_ids[i]` with `new_acs[i]` for
every index `i`, stated both as a `zipWith` and element-wise — and its result
is the list of device ids extracted from the response's `DevicesPassed`
entries. -/
theorem C5_positional_pairing :
    (∀ (ids acs : List String), ids.length = acs.length →
       devPairs ids acs = .ok (List.zipWith mkDevPair ids acs)) ∧
    (∀ (ids acs : List String) (i : Nat), ids.length = acs.length → i < ids.length →
       (List.zipWith mkDevPair ids acs).getD i Json.null =
         mkDevPair (ids.getD i "") (acs.getD i "")) ∧
    (∀ (ids acs : List String) (tok : String), ids.length = acs.length →
       add_devices_request ids acs tok =
         .ok { method := "POST", url := base ++ "/account/AddDevices",
               params := [("Authorization", Json.str ("Bearer " ++ tok)),
                          ("devices", Json.arr (List.zipWith mkDevPair ids acs))],
               headers := [], basicAuth := none }) ∧
    (∀ (ids acs : List String) (tok : String) (r : Resp) (kvs : List (String × Json))
       (ds outs : List Json),
       ids.length = acs.length →
       r.body = some (Json.obj kvs) →
       kvs.lookup "DevicesPassed" = some (Json.arr ds) →
       mapSubscript "DeviceId" ds = .ok outs →
       (add_devices ids acs tok (fun _ => r)).1 = .ok (Json.arr outs)) := by
  refine ⟨?_, ?_, ?_, ?_⟩
  · intro ids acs hlen
    exact devPairs_ok_of_le ids acs (le_of_eq hlen)
  · intro ids acs i hlen hi
    exact zipWith_mkDevPair_getD ids acs i hi (hlen ▸ hi)
  · intro ids acs tok hlen
    simp [add_devices_request, devPairs_ok_of_le ids acs (le_of_eq hlen)]
  · intro ids acs tok r kvs ds outs hlen hb hdp hmap
    simp [add_devices, add_devices_request, devPairs_ok_of_le ids acs (le_of_eq hlen), hb,
      pyContains, pySubscript, hdp, pyIter, hmap]

/-- C5 (witness): the positional pairing and extraction at concrete
inputs. -/
theorem C5_positional_pairing_witness :
    (["0123456789abcdef"] : List String).length =
      (["0123456789abcdef0123456789abcdef"] : List String).length ∧
    add_devices_request ["0123456789abcdef"] ["0123456789abcdef0123456789abcdef"] "tok" =
      .ok { method := "POST", url := base ++ "/account/AddDevices",
            params := [("Authorization", Json.str ("Bearer " ++ "tok")),
                       ("devices", Json.arr (List.zipWith mkDevPair
                         ["0123456789abcdef"] ["0123456789abcdef0123456789abcdef"]))],
            headers := [], basicAuth := none } ∧
    (add_devices ["0123456789abcdef"] ["0123456789abcdef0123456789abcdef"] "tok"
        (fun _ => respPassed)).1 = .ok (Json.arr [Json.str "0123456789abcdef"]) :=
  ⟨rfl,
   C5_positional_pairing.2.2.1 ["0123456789abcdef"] ["0123456789abcdef0123456789abcdef"]
     "tok" rfl,
   C5_positional_pairing.2.2.2 ["0123456789abcdef"] ["0123456789abcdef0123456789abcdef"]
     "tok" respPassed _ _ _ rfl rfl rfl rfl⟩

/-- C10: when the activation-code list is strictly shorter than the id list,
`add_devices` stops with `IndexError` while building the request dict — the
outcome and the log are the same whatever the `server` function, so no HTTP
request is sent; when the activation-code list is strictly longer, the
surplus codes are ignored: the call behaves exactly as if the code list were
truncated to the id list's length. -/
theorem C10_index_error_and_surplus_ignored :
    (∀ (ids acs : List String) (tok : String) (server : Request → Resp),
       acs.length < ids.length →
       add_devices ids acs tok server =
         (.error PyErr.indexError, [LogEntry.info "Adding devices..."])) ∧
    (∀ (ids acs : List String) (tok : String) (server : Request → Resp),
       ids.length < acs.length →
       add_devices ids acs tok server = add_devices ids (List.take ids.length acs) tok server) := by
  constructor
  · intro ids acs tok server h
    simp [add_devices, add_devices_request, devPairs_err_of_lt ids acs h]
  · intro ids acs tok server h
    simp [add_devices, add_devices_request, devPairs_take ids acs (le_of_lt h)]

/-- C10 (witness): the index error and the truncation at concrete inputs. -/
theorem C10_index_error_witness :
    (["ac1"] : List String).length < (["id1", "id2"] : List String).length ∧
    add_devices ["id1", "id2"] ["ac1"] "tok" (fun _ => respPassed) =
      (.error PyErr.indexError, [LogEntry.info "Adding devices..."]) ∧
    add_devices ["id1"] ["ac1", "ac2"] "tok" (fun _ => respPassed) =
      add_devices ["id1"] (List.take 1 ["ac1", "ac2"]) "tok" (fun _ => respPassed) :=
  ⟨by decide,
   C10_index_error_and_surplus_ignored.1 ["id1", "id2"] ["ac1"] "tok"
     (fun _ => respPassed) (by decide),
   C10_index_error_and_surplus_ignored.2 ["id1"] ["ac1", "ac2"] "tok"
     (fun _ => respPassed) (by decide)⟩
